import Mathlib

/-!
Shallow embedding of `src/crawl-ref/source/movement.cc` (single-actor
turn-based movement and melee-adjacency resolution) and proofs about it.

External collaborators (the dungeon grid's feature table, monster AI,
combat resolution, the status/duration store, messaging and the
confirmation UI) are modelled as parameters of an `Env` structure:
read-only query functions and prompt oracles, exactly as the module's
specification declares them out of scope.  Randomness is modelled by an
explicit `RNG` structure of per-site draws.  All player mutation is
explicit state passing on a `player` structure.
-/

/-- Grid coordinate, after `coord_def` (coord.h): a pair of machine ints. -/
structure coord_def where
  x : Int
  y : Int
deriving DecidableEq

instance : Add coord_def := ⟨fun a b => ⟨a.x + b.x, a.y + b.y⟩⟩
instance : Sub coord_def := ⟨fun a b => ⟨a.x - b.x, a.y - b.y⟩⟩

/-- Scalar multiple of a coordinate (C++ `coord_def * int`). -/
def coord_def.smul (c : coord_def) (n : Int) : coord_def := ⟨c.x * n, c.y * n⟩

/-- C++ `coord_def::origin()`: both components zero. -/
def coord_def.origin (c : coord_def) : Bool := c.x = 0 && c.y = 0

/-- The dungeon feature kinds this module inspects (a fragment of the
`dungeon_feature_type` enum; the full table lives in the external grid
collaborator). -/
inductive dungeon_feature_type where
  | DNGN_UNSEEN
  | DNGN_FLOOR
  | DNGN_ROCK_WALL
  | DNGN_TREE
  | DNGN_CLOSED_DOOR
  | DNGN_CLOSED_CLEAR_DOOR
  | DNGN_RUNED_DOOR
  | DNGN_RUNED_CLEAR_DOOR
  | DNGN_OPEN_DOOR
  | DNGN_OPEN_CLEAR_DOOR
  | DNGN_SEALED_DOOR
  | DNGN_SEALED_CLEAR_DOOR
  | DNGN_LAVA
  | DNGN_DEEP_WATER
  | DNGN_SHALLOW_WATER
  | DNGN_TOXIC_BOG
  | DNGN_MALIGN_GATEWAY
  | DNGN_OPEN_SEA
  | DNGN_LAVA_SEA
deriving DecidableEq

open dungeon_feature_type

/-- Modelled from the spec: door features (open, closed, runed and sealed
variants), as classified by the external terrain layer (`feat_is_door`). -/
def feat_is_door : dungeon_feature_type → Bool
  | DNGN_CLOSED_DOOR | DNGN_CLOSED_CLEAR_DOOR
  | DNGN_RUNED_DOOR | DNGN_RUNED_CLEAR_DOOR
  | DNGN_OPEN_DOOR | DNGN_OPEN_CLEAR_DOOR
  | DNGN_SEALED_DOOR | DNGN_SEALED_CLEAR_DOOR => true
  | _ => false

/-- Modelled from the spec: closed-state doors ("runed-variants behave as
closed"), as classified by the external terrain layer
(`feat_is_closed_door`). -/
def feat_is_closed_door : dungeon_feature_type → Bool
  | DNGN_CLOSED_DOOR | DNGN_CLOSED_CLEAR_DOOR
  | DNGN_RUNED_DOOR | DNGN_RUNED_CLEAR_DOOR
  | DNGN_SEALED_DOOR | DNGN_SEALED_CLEAR_DOOR => true
  | _ => false

/-- Modelled from the spec: features carrying the FFT_SOLID flag.  The
source's own comment (movement.cc:668-670) enumerates them: walls, closed
doors, sealed doors, trees, open sea, lava sea, grates, statues, malign
gateways and DNGN_UNSEEN. -/
def feat_is_solid : dungeon_feature_type → Bool
  | DNGN_ROCK_WALL | DNGN_TREE
  | DNGN_CLOSED_DOOR | DNGN_CLOSED_CLEAR_DOOR
  | DNGN_RUNED_DOOR | DNGN_RUNED_CLEAR_DOOR
  | DNGN_SEALED_DOOR | DNGN_SEALED_CLEAR_DOOR
  | DNGN_MALIGN_GATEWAY | DNGN_OPEN_SEA | DNGN_LAVA_SEA
  | DNGN_UNSEEN => true
  | _ => false

/-- Modelled from the spec: lava-kind features (external `feat_is_lava`). -/
def feat_is_lava : dungeon_feature_type → Bool
  | DNGN_LAVA | DNGN_LAVA_SEA => true
  | _ => false

/-- Modelled from the spec: tree features (external `feat_is_tree`). -/
def feat_is_tree : dungeon_feature_type → Bool
  | DNGN_TREE => true
  | _ => false

/-- The facts about a monster occupant that movement.cc queries: its
disposition, special-kind flags and visibility, per the spec's
"Monster Occupant" data model.  Referenced by position lookup only. -/
structure monster where
  /-- `mons->wont_attack()`: friendly or good-neutral disposition. -/
  wont_attack : Bool
  /-- `mons->friendly()`. -/
  friendly : Bool
  /-- `mons->neutral()`. -/
  neutral : Bool
  /-- `mons->temp_attitude() == ATT_NEUTRAL`. -/
  temp_att_neutral : Bool
  /-- `mons_is_firewood(*mons)`: inert scenery (plant-likes). -/
  firewood : Bool
  /-- `you.can_see(*mons)`. -/
  visible : Bool
  /-- `mons->submerged()`. -/
  submerged : Bool
deriving DecidableEq

/-- Result kind of the lunge resolver, after the `spret` enum: the source
comment (movement.cc:513-516) gives the meaning of each value. -/
inductive spret where
  | fail
  | abort
  | success
deriving DecidableEq

/-- The player fields movement.cc reads or writes: position, the
movement-affecting status set, the time-taken accumulator, the running
mode and the turn-completion flag (spec "Actor" data model). -/
structure player where
  pos : coord_def
  /-- `you.confused()`. -/
  confused : Bool
  /-- `you.is_stationary()`: stationary form (e.g. tree). -/
  stationary : Bool
  /-- `you.is_nervous()` (fungus-form terror). -/
  nervous : Bool
  /-- `you.is_constricted()`. -/
  constricted : Bool
  /-- `you.lunging()`: the lunge capability is active. -/
  lunging : Bool
  /-- `you.attribute[ATTR_HELD]`: held in a net. -/
  attribute_held : Bool
  /-- `you.digging`. -/
  digging : Bool
  /-- `you.form == transformation::fungus`. -/
  form_fungus : Bool
  /-- `you.turn_is_over`: the turn-completion flag. -/
  turn_is_over : Bool
  /-- `you.apply_berserk_penalty`. -/
  apply_berserk_penalty : Bool
  /-- `you.berserk_penalty`. -/
  berserk_penalty : Int
  /-- `you.time_taken`: time-taken accumulator for the current turn. -/
  time_taken : Nat
  /-- `you.duration[DUR_BARBS]`. -/
  duration_barbs : Nat
  /-- `you.attribute[ATTR_BARBS_POW]` (damage scale only). -/
  attribute_barbs_pow : Nat
  /-- `you.duration[DUR_ICY_ARMOUR]`. -/
  duration_icy_armour : Nat
  /-- `you.duration[DUR_WATER_HOLD]` (with its `water_holder` prop). -/
  duration_water_hold : Nat
  /-- `you.duration[DUR_NO_HOP]`. -/
  duration_no_hop : Nat
  /-- `you.duration[DUR_NOXIOUS_BOG]`. -/
  duration_noxious_bog : Nat
  /-- `you.duration[DUR_CLOUD_TRAIL]`. -/
  duration_cloud_trail : Nat
  /-- `you.props.exists(BARBS_MOVE_KEY)`: barbed-move confirmation
  already given this session. -/
  props_barbs_move_key : Bool
  /-- `you.running` run mode (truthy iff nonzero). -/
  running_mode : Int
  /-- `you.running.travel_speed`. -/
  running_travel_speed : Nat
deriving DecidableEq

/-- Modelled from the spec: run-mode constants of the external travel/run
subsystem ("sustained run" start and continuation; values are opaque to
this module, only `RMODE_START -> RMODE_CONTINUE` and truthiness matter). -/
def RMODE_START : Int := 2

/-- Modelled from the spec: see `RMODE_START`. -/
def RMODE_CONTINUE : Int := 1

/-- Modelled from the spec: `BASELINE_DELAY`, the baseline turn cost used
by the fixed additional digging cost (`BASELINE_DELAY / 5`). -/
def BASELINE_DELAY : Nat := 10

/-- The external collaborators of movement.cc, as abstract contracts
(spec section 6): grid queries, occupant lookup, terrain classification
predicates, restraint lookups, confirmation-UI oracles and option flags.
All are read-only during one move resolution. -/
structure Env where
  /-- `grd(p)` / `env.grid(p)`: feature at a cell. -/
  grd : coord_def → dungeon_feature_type
  /-- `monster_at(p)`. -/
  monster_at : coord_def → Option monster
  /-- `in_bounds(p)`. -/
  in_bounds : coord_def → Bool
  /-- `is_sanctuary(p)`. -/
  is_sanctuary : coord_def → Bool
  /-- `you.trans_wall_blocking(p)`: visually opaque obstruction. -/
  trans_wall_blocking : coord_def → Bool
  /-- `you.get_beholder(p)`: beholder forbidding moves away. -/
  get_beholder : coord_def → Option monster
  /-- `you.get_fearmonger(p)`: fearmonger forbidding approach. -/
  get_fearmonger : coord_def → Option monster
  /-- `you.can_pass_through(p)` (form/state dependent passability). -/
  can_pass_through : coord_def → Bool
  /-- `feat_is_traversable(f)` (external terrain layer). -/
  feat_is_traversable : dungeon_feature_type → Bool
  /-- `feat_is_diggable(f)` (external terrain layer). -/
  feat_is_diggable : dungeon_feature_type → Bool
  /-- `is_feat_dangerous(f)` (player-state dependent hazard check). -/
  is_feat_dangerous : dungeon_feature_type → Bool
  /-- `fedhas_passthrough(mons)`: plant occupants passable to allies of
  Fedhas. -/
  fedhas_passthrough : monster → Bool
  /-- `player_movement_speed()`: the movement-speed multiplier. -/
  player_movement_speed : Nat
  /-- Verdict of the adjacent-danger scan of `cancel_confused_move`
  (movement.cc:243-301): it reads only external predicates
  (`is_feat_dangerous`, `need_expiration_warning`, `bad_attack`), so it
  is summarized by its outcome: some dangerous feature or provokable
  monster is adjacent. -/
  confused_danger : Bool
  /-- Answer to the confused-move confirmation prompt. -/
  confused_prompt_yes : Bool
  /-- Answer to the barbed-skin confirmation prompt (`yesno` in
  `cancel_barbed_move`). -/
  barbs_prompt_yes : Bool
  /-- `check_moveto(target, "lunge")`: dangerous-terrain/trap/exclusion
  confirmation for the lunge advance (true = move confirmed). -/
  check_moveto_lunge : Bool
  /-- `check_moveto(targ, walkverb)`: the same confirmation for the
  ordinary move. -/
  check_moveto_walk : Bool
  /-- `swap_check(targ_monst, mon_swap_dest)`. -/
  swap_check_ok : Bool
  /-- The swap destination written by `swap_check`. -/
  mon_swap_dest : coord_def
  /-- `you.running.check_stop_running()`. -/
  check_stop_running : Bool
  /-- `you.attempt_escape()`: false means constricted and did not
  escape. -/
  attempt_escape_ok : Bool
  /-- `crawl_state.is_repeating_cmd()`. -/
  is_repeating_cmd : Bool
  /-- `crawl_state.disables[DIS_CONFIRMATIONS]`. -/
  disables_confirmations : Bool
  /-- `Options.easy_door`. -/
  easy_door : Bool
  /-- `Options.travel_open_doors`. -/
  travel_open_doors : Bool
  /-- `you_are_delayed() && current_delay()->is_run()`. -/
  you_are_delayed_run : Bool
  /-- `door_vetoed(p)`: map-metadata veto on a door. -/
  door_vetoed : coord_def → Bool
  /-- `prompt_compass_direction()` answer (origin = cancelled). -/
  prompt_compass : coord_def
  /-- `prompt_dangerous_portal(feat)` answer for the malign gateway. -/
  prompt_dangerous_portal_yes : Bool
  /-- `find_connected_identical(p, set)`: all cells of the multi-cell
  gate containing `p` (external dungeon connectivity query). -/
  find_connected_identical : coord_def → List coord_def

/-- `cell_is_solid(p)`: the cell's feature carries FFT_SOLID. -/
def cell_is_solid (env : Env) (p : coord_def) : Bool :=
  feat_is_solid (env.grd p)

/-- One explicit random draw per consumption site of one move
resolution (the external `random.h` collaborator). -/
structure RNG where
  /-- The `one_chance_in(3)` draw of the confusion gate: a uniform draw
  from `Fin 3`; `one_chance_in(3)` is true exactly on value 0. -/
  conf_chance : Fin 3
  /-- The `random2(3)` draw for the substituted x component. -/
  conf_rx : Fin 3
  /-- The `random2(3)` draw for the substituted y component. -/
  conf_ry : Fin 3
  /-- The `random2(10)` draw of `div_rand_round(time_taken, 10)` in
  `_apply_move_time_taken`. -/
  mtt_round : Nat
  /-- The `random2(2)` draw of `div_rand_round(time_taken * 3, 2)` on the
  Fedhas plant-passthrough path. -/
  fedhas_round : Nat
  /-- The `one_chance_in(3)` spike-snap draw of `apply_barbs_damage`
  (true-on-zero `Fin 3` draw). -/
  barbs_snap : Fin 3
deriving DecidableEq

/-- Modelled from the spec: `div_rand_round(num, den)` of the external
random.h helper — division "with (randomized) rounding": the quotient,
rounded up when the uniform draw `r = random2(den)` falls below the
remainder. -/
def div_rand_round (num den r : Nat) : Nat :=
  num / den + (if r < num % den then 1 else 0)

/-- Modelled from the spec: `div_round_up(num, den)` — division rounding
up (the run pace floor `div_round_up(100, travel_speed)`). -/
def div_round_up (num den : Nat) : Nat :=
  (num + den - 1) / den

/-- The 8 neighbour offsets in `adjacent_iterator` order (row-major scan
of the 3x3 block around the centre, centre excluded). -/
def adjacent_offsets : List coord_def :=
  [⟨-1, -1⟩, ⟨0, -1⟩, ⟨1, -1⟩, ⟨-1, 0⟩, ⟨1, 0⟩, ⟨-1, 1⟩, ⟨0, 1⟩, ⟨1, 1⟩]

/-- Loop body of `_check_adjacent` (movement.cc:102-130): walk the 8
neighbours, count cells matching `feat`, record the offset of the last
match, and — for door features — merge all cells of a multi-cell gate
(`find_connected_identical`) so the gate counts as one door. -/
def check_adjacent_go (env : Env) (feat : dungeon_feature_type) (pos : coord_def) :
    List coord_def → Nat → coord_def → List coord_def → Nat × coord_def
  | [], num, delta, _ => (num, delta)
  | off :: rest, num, delta, doors =>
    let p := pos + off
    if env.grd p = feat then
      if feat_is_door feat && doors.contains p then
        -- already included in a gate, skip this door
        check_adjacent_go env feat pos rest num delta doors
      else
        let doors' := if feat_is_door feat
                      then doors ++ env.find_connected_identical p
                      else doors
        check_adjacent_go env feat pos rest (num + 1) (p - pos) doors'
    else
      check_adjacent_go env feat pos rest num delta doors

/-- `_check_adjacent(feat, delta)` (movement.cc:102-130): how many
adjacent squares hold `feat` (gates merged), and the delta of the last
one found (`delta0` when none is found, mirroring the by-reference
parameter that is left untouched). -/
def _check_adjacent (env : Env) (feat : dungeon_feature_type)
    (pos delta0 : coord_def) : Nat × coord_def :=
  check_adjacent_go env feat pos adjacent_offsets 0 delta0 []

/-- `cancel_barbed_move(lunging)` (movement.cc:146-163): when barbed and
not yet confirmed this session, prompt; a declined prompt cancels the
move (`true`) with no state change, an accepted one records
BARBS_MOVE_KEY.  The `lunging` argument only flavours the prompt text. -/
def cancel_barbed_move (_lunging : Bool) (env : Env) (you : player) :
    Bool × player :=
  if you.duration_barbs ≠ 0 && !you.props_barbs_move_key then
    if !env.barbs_prompt_yes then
      (true, you)
    else
      (false, { you with props_barbs_move_key := true })
  else
    (false, you)

/-- `extract_manticore_spikes` (external status-store call): ends the
barbs effect. -/
def extract_manticore_spikes (you : player) : player :=
  { you with duration_barbs := 0 }

/-- `apply_barbs_damage(lunging)` (movement.cc:165-181): damage (external
`ouch`) and blood decal, a 1-in-3 chance to snap the spikes loose, and
otherwise a duration extension by the time taken (none when lunging). -/
def apply_barbs_damage (rng : RNG) (lunging : Bool) (you : player) : player :=
  if you.duration_barbs ≠ 0 then
    -- ouch(roll_dice(2, ATTR_BARBS_POW)) and bleed_onto_floor: external
    let you1 := if rng.barbs_snap.val = 0 then extract_manticore_spikes you
                else you
    if you1.duration_barbs ≠ 0 then
      { you1 with duration_barbs :=
          you1.duration_barbs + (if lunging then 0 else you1.time_taken) }
    else you1
  else you

/-- `remove_ice_armour_movement` (movement.cc:183-192). -/
def remove_ice_armour_movement (you : player) : player :=
  if you.duration_icy_armour ≠ 0 then
    { you with duration_icy_armour := 0 }
  else you

/-- `remove_water_hold` (movement.cc:194-202): slip free of the water
engulfing you (prop erase and `clear_far_engulf`, ending the duration). -/
def remove_water_hold (you : player) : player :=
  if you.duration_water_hold ≠ 0 then
    { you with duration_water_hold := 0 }
  else you

/-- `_clear_constriction_data` (movement.cc:204-209). -/
def _clear_constriction_data (you : player) : player :=
  { you with constricted := false }

/-- `apply_noxious_bog(old_pos)` (movement.cc:211-220): places a bog
cloud at the vacated cell via the external cloud collaborator; no player
field changes. -/
def apply_noxious_bog (_env : Env) (_old_pos : coord_def) (you : player) :
    player :=
  you

/-- `apply_cloud_trail(old_pos)` (movement.cc:222-239): places the Xom
trail cloud at the vacated cell via the external cloud collaborator; no
player field changes. -/
def apply_cloud_trail (_env : Env) (_old_pos : coord_def) (you : player) :
    player :=
  you

/-- `cancel_confused_move(stationary)` (movement.cc:241-316): true iff
the adjacent-danger scan found something, confirmations are enabled and
the player declined the prompt.  The scan itself reads only external
predicates and is summarized by `Env.confused_danger`. -/
def cancel_confused_move (env : Env) (_stationary : Bool) : Bool :=
  env.confused_danger && !env.disables_confirmations
    && !env.confused_prompt_yes

/-- `move_player_to_grid(targ, stepped)` (external player.cc call):
repositions the actor; its location effects live in the external
collaborator. -/
def move_player_to_grid (_env : Env) (targ : coord_def) (you : player) :
    player :=
  { you with pos := targ }

/-- `stop_running()` (external travel call): clears the run mode. -/
def stop_running (you : player) : player :=
  { you with running_mode := 0 }

/-- The entry assertion of `_lunge_forward` (movement.cc:522-524), as
written: `abs(you.pos().x - move.x) > 1 || abs(you.pos().y - move.y) > 1`.
The accompanying source comment says it should "Assert if the requested
move is beyond [-1,1] distance".  True = the ASSERT passes. -/
def _lunge_assert_cond (pos mv : coord_def) : Bool :=
  |pos.x - mv.x| > 1 || |pos.y - mv.y| > 1

/-- The condition the source comment intends the assertion to enforce: a
directional lunge always receives an in-range delta, both components of
the requested move vector in [-1,1]. -/
def delta_in_range (mv : coord_def) : Bool :=
  |mv.x| ≤ 1 && |mv.y| ≤ 1

/-- Whether the lunge tracer stops at cell `p` (movement.cc:578-589):
terrain that is impassable (shallow water excepted), solid, or visually
opaque breaks the tracer path before it reaches a monster. -/
def lunge_blocked (env : Env) (p : coord_def) : Bool :=
  (!env.feat_is_traversable (env.grd p) && !(env.grd p = DNGN_SHALLOW_WATER))
    || cell_is_solid env p || env.trans_wall_blocking p

/-- The tracer iteration of `_lunge_forward` (movement.cc:576-610) over
`beam.path_taken`: stop with nothing on a blocked cell; skip invisible
occupants; stop with nothing at a visible occupant that is friendly,
neutral or mere firewood; the first other visible occupant is the valid
target (returned with its index along the path). -/
def lunge_scan (env : Env) : List coord_def → Option (Nat × monster)
  | [] => none
  | p :: rest =>
    if lunge_blocked env p then none
    else
      match env.monster_at p with
      | none => (lunge_scan env rest).map (fun im => (im.1 + 1, im.2))
      | some mon =>
        if !mon.visible then
          (lunge_scan env rest).map (fun im => (im.1 + 1, im.2))
        else if mon.friendly || mon.neutral || mon.firewood then none
        else some (0, mon)

/-- The tracer path of `_lunge_forward`: the cells from the player's
position (exclusive) out to `tracer_range = 7` steps along the requested
compass direction (`beam.path_taken` of the lunging tracer bolt). -/
def lunge_path (pos mv : coord_def) : List coord_def :=
  (List.range 7).map (fun k => pos + mv.smul (k + 1))

/-- The commit phase of `_lunge_forward` (movement.cc:683-705): pre-move
effects (leave engulfing water, disengage constriction), the one-cell
reposition flavoured as ordinary movement, then the post-move effects
(barbed damage, icy armour loss, trailing bog and cloud at the vacated
cell; a run-delay travel trail update is an external travel call). -/
def lunge_commit (env : Env) (rng : RNG) (lunge_target : coord_def)
    (you1 : player) : player :=
  let you2 := remove_water_hold you1
  let you3 := _clear_constriction_data you2
  let old_pos := you3.pos
  let you4 := move_player_to_grid env lunge_target you3
  let you5 := apply_barbs_damage rng true you4
  let you6 := remove_ice_armour_movement you5
  let you7 := apply_noxious_bog env old_pos you6
  let you8 := apply_cloud_trail env old_pos you7
  you8

/-- `_lunge_forward(move)` (movement.cc:518-706).  `spret.fail` when
something invalid prevents the lunge, `spret.abort` when a prompt
response cancels the whole move, `spret.success` once the actor has been
repositioned one cell forward; the player state is returned alongside. -/
def _lunge_forward (env : Env) (rng : RNG) (mv : coord_def) (you : player) :
    spret × player :=
  -- the entry ASSERT is embedded separately as `_lunge_assert_cond`
  if env.is_repeating_cmd then (spret.fail, you)
  else if you.nervous || you.confused || you.stationary || you.constricted then
    (spret.fail, you)
  else
    let lunge_target := you.pos + mv.smul 1
    match lunge_scan env (lunge_path you.pos mv) with
    | none => (spret.fail, you)      -- no valid target along the tracer
    | some _valid_target =>
      if lunge_target = you.pos then (spret.fail, you)
      else if (env.get_beholder lunge_target).isSome then (spret.fail, you)
      else if (env.get_fearmonger lunge_target).isSome then (spret.fail, you)
      else if (env.monster_at lunge_target).isSome then (spret.fail, you)
      else if feat_is_lava (env.grd lunge_target) then (spret.fail, you)
      else if env.grd lunge_target = DNGN_DEEP_WATER
              ∨ env.grd lunge_target = DNGN_TOXIC_BOG then (spret.fail, you)
      else if env.trans_wall_blocking lunge_target then (spret.fail, you)
      else if cell_is_solid env lunge_target then (spret.fail, you)
      else if !env.check_moveto_lunge then (spret.abort, you)
      else
        match cancel_barbed_move true env you with
        | (true, you1) => (spret.abort, you1)
        | (false, you1) =>
          -- validity checks passed: commit the lunge
          (spret.success, lunge_commit env rng lunge_target you1)

/-- `_apply_move_time_taken(additional_time_taken)` (movement.cc:708-722):
scale the base time by the movement-speed multiplier, divide by 10 with
randomized rounding, add the extra fixed cost, floor by the configured
run pace while running, and stretch DUR_NO_HOP accordingly. -/
def _apply_move_time_taken (env : Env) (rng : RNG)
    (additional_time_taken : Nat) (you : player) : player :=
  let t1 := you.time_taken * env.player_movement_speed
  let t2 := div_rand_round t1 10 rng.mtt_round
  let t3 := t2 + additional_time_taken
  let t4 := if you.running_mode ≠ 0 ∧ you.running_travel_speed ≠ 0 then
              max t3 (div_round_up 100 you.running_travel_speed)
            else t3
  { you with
      time_taken := t4,
      duration_no_hop := if you.duration_no_hop ≠ 0 then
                           you.duration_no_hop + t4
                         else you.duration_no_hop }

/-- `_finalize_cancelled_lunge_move(initial_position)`
(movement.cc:729-750): when a begun lunge's second move is cancelled,
apply the move delay anyway, end the turn, and run the turn-ending
bookkeeping (berserk penalty; the hasty-god conduct, allied post-move
triggers and acrobat update are external collaborator calls). -/
def _finalize_cancelled_lunge_move (env : Env) (rng : RNG)
    (_initial_position : coord_def) (you : player) : player :=
  let you1 := _apply_move_time_taken env rng 0 you
  { you1 with turn_is_over := true, apply_berserk_penalty := true }

/-- Outcome tags for the door actions.  Each tag stands for the message
and external call its source branch performs; `opened`/`closed` carry the
cell handed to the external `player_open_door` / `player_close_door`
call — the only channel through which a door action mutates the grid. -/
inductive DoorOutcome where
  /-- net branch: `free_self_from_net`, turn over (open only). -/
  | net_free
  /-- held branch of `close_door_action`: message, no turn. -/
  | held_cannot_close
  /-- `canned_msg(MSG_TOO_CONFUSED)`. -/
  | too_confused
  /-- "There's nothing to open nearby." -/
  | nothing_to_open
  /-- "There's nothing to close nearby." -/
  | nothing_to_close
  /-- `prompt_compass_direction` returned origin. -/
  | prompt_cancelled
  /-- `door_vetoed`: "shut tight" or custom veto message. -/
  | vetoed
  /-- `player_open_door(doorpos)` (external door-state transition). -/
  | opened (doorpos : coord_def)
  /-- "It's already open!". -/
  | already_open
  /-- "That door is sealed shut!". -/
  | sealed_shut
  /-- "There isn't anything that you can open there!". -/
  | nothing_to_open_there
  /-- `player_close_door(doorpos)` (external door-state transition). -/
  | closed (doorpos : coord_def)
  /-- "It's already closed!". -/
  | already_closed
  /-- "There isn't anything that you can close there!". -/
  | nothing_to_close_there
deriving DecidableEq

/-- Result of a door action: final player state and the realized branch. -/
structure DoorResult where
  you : player
  outcome : DoorOutcome
deriving DecidableEq

/-- The direction-resolved part of `open_door_action`
(movement.cc:369-421): veto check, then the feature switch on the chosen
cell. -/
def open_door_at (env : Env) (doorpos : coord_def) (you : player) :
    DoorResult :=
  if env.door_vetoed doorpos then
    -- a veto while confused still consumes the turn
    if you.confused then ⟨{ you with turn_is_over := true }, DoorOutcome.vetoed⟩
    else ⟨you, DoorOutcome.vetoed⟩
  else
    match (if env.in_bounds doorpos then env.grd doorpos else DNGN_UNSEEN) with
    | DNGN_CLOSED_DOOR | DNGN_CLOSED_CLEAR_DOOR
    | DNGN_RUNED_DOOR | DNGN_RUNED_CLEAR_DOOR =>
      ⟨you, DoorOutcome.opened doorpos⟩
    | DNGN_OPEN_DOOR | DNGN_OPEN_CLEAR_DOOR =>
      ⟨you, DoorOutcome.already_open⟩
    | DNGN_SEALED_DOOR | DNGN_SEALED_CLEAR_DOOR =>
      ⟨you, DoorOutcome.sealed_shut⟩
    | _ => ⟨you, DoorOutcome.nothing_to_open_there⟩

/-- `open_door_action(move)` (movement.cc:321-421). -/
def open_door_action (env : Env) (move0 : coord_def) (you : player) :
    DoorResult :=
  if you.attribute_held then
    ⟨{ you with turn_is_over := true }, DoorOutcome.net_free⟩
  else if you.confused then
    ⟨you, DoorOutcome.too_confused⟩
  else if move0.origin then
    -- the player has not picked a direction yet
    let r1 := _check_adjacent env DNGN_CLOSED_DOOR you.pos move0
    let r2 := _check_adjacent env DNGN_CLOSED_CLEAR_DOOR you.pos r1.2
    let r3 := _check_adjacent env DNGN_RUNED_DOOR you.pos r2.2
    let r4 := _check_adjacent env DNGN_RUNED_CLEAR_DOOR you.pos r3.2
    let num := r1.1 + r2.1 + r3.1 + r4.1
    if num = 0 then ⟨you, DoorOutcome.nothing_to_open⟩
    else if num = 1 && env.easy_door then
      open_door_at env (you.pos + r4.2) you
    else if env.prompt_compass.origin then ⟨you, DoorOutcome.prompt_cancelled⟩
    else open_door_at env (you.pos + env.prompt_compass) you
  else
    open_door_at env (you.pos + move0) you

/-- The direction-resolved part of `close_door_action`
(movement.cc:462-484): the feature switch on the chosen cell. -/
def close_door_at (env : Env) (doorpos : coord_def) (you : player) :
    DoorResult :=
  match (if env.in_bounds doorpos then env.grd doorpos else DNGN_UNSEEN) with
  | DNGN_OPEN_DOOR | DNGN_OPEN_CLEAR_DOOR =>
    ⟨you, DoorOutcome.closed doorpos⟩
  | DNGN_CLOSED_DOOR | DNGN_CLOSED_CLEAR_DOOR
  | DNGN_RUNED_DOOR | DNGN_RUNED_CLEAR_DOOR
  | DNGN_SEALED_DOOR | DNGN_SEALED_CLEAR_DOOR =>
    ⟨you, DoorOutcome.already_closed⟩
  | _ => ⟨you, DoorOutcome.nothing_to_close_there⟩

/-- `close_door_action(move)` (movement.cc:423-484). -/
def close_door_action (env : Env) (move0 : coord_def) (you : player) :
    DoorResult :=
  if you.attribute_held then
    ⟨you, DoorOutcome.held_cannot_close⟩
  else if you.confused then
    ⟨you, DoorOutcome.too_confused⟩
  else if move0.origin then
    let r1 := _check_adjacent env DNGN_OPEN_DOOR you.pos move0
    let r2 := _check_adjacent env DNGN_OPEN_CLEAR_DOOR you.pos r1.2
    let num := r1.1 + r2.1
    if num = 0 then ⟨you, DoorOutcome.nothing_to_close⟩
    else if num = 1 && env.easy_door then
      close_door_at env (you.pos + r2.2) you
    else if env.prompt_compass.origin then ⟨you, DoorOutcome.prompt_cancelled⟩
    else close_door_at env (you.pos + env.prompt_compass) you
  else
    close_door_at env (you.pos + move0) you

/-- The Move Outcome of one `move_player_action` invocation (the spec's
conceptual tagged result): one tag per return point / final branch of
movement.cc:754-1166.  Each tag stands for the message and external
calls of its branch. -/
inductive MoveOutcome where
  /-- net escape (767-772): `free_self_from_net`, turn over. -/
  | net_escape
  /-- confused stationary form (779-787): message, no turn. -/
  | cannot_move_stationary
  /-- declined confused-move confirmation (789-790): no turn. -/
  | confused_prompt_cancel
  /-- declined barbed-skin confirmation (792-793, 1035-1036): no turn. -/
  | barbed_cancel
  /-- confusion randomized the move to the zero vector (799-805):
  "too confused to move", turn over. -/
  | too_confused
  /-- confused bump into an impassable target (808-829): turn over. -/
  | confused_bump
  /-- the lunge resolver returned `spret.abort` (840-844): the move is
  cancelled entirely. -/
  | lunge_abort
  /-- target out of bounds (860-867): no turn. -/
  | out_of_bounds
  /-- `check_stop_running` cancelled the move, no lunge (941-943). -/
  | run_stop
  /-- a begun lunge's second move was cancelled (936-939, 977-982,
  1022-1027): `_finalize_cancelled_lunge_move` ran. -/
  | cancelled_lunge_move
  /-- a visible neutral monster refuses to make way (960-967): no turn. -/
  | neutral_refuse
  /-- declined the invisible-occupant attack confirmation without a
  preceding lunge (970-985): no turn. -/
  | invis_prompt_cancel
  /-- `fight_melee` ran against the occupant (988-992). -/
  | attack
  /-- fungus form too terrified to move while watched (997-1003). -/
  | terrified
  /-- confused stumble at a dangerous feature (1010-1017): turn over. -/
  | confused_stumble
  /-- declined the dangerous-terrain move confirmation without a
  preceding lunge (1019-1030): no turn. -/
  | moveto_cancel
  /-- `you.attempt_escape()` failed: constricted (1038-1039). -/
  | constricted_stuck
  /-- the move committed (1041-1086): walked (with flags for digging
  and swapping), time accounted, turn over. -/
  | walked (dug : Bool) (swapped : Bool)
  /-- the destination is a closed door: `open_door_action` (1089-1096). -/
  | door_action
  /-- declined the malign gateway prompt (1100-1104): no turn. -/
  | portal_prompt_cancel
  /-- entered the malign gateway (1106-1110): turn over. -/
  | entered_malign_portal
  /-- impassable target (1112-1127): message, no turn. -/
  | blocked_terrain
  /-- "You cannot move away from ...!" (1129-1134). -/
  | beholder_block
  /-- "You cannot move closer to ...!" (1136-1141). -/
  | fmonger_block
  /-- fell through to the epilogue with no attack and no movement
  (e.g. `swap_check` refused the swap). -/
  | no_move
deriving DecidableEq

/-- Result of one `move_player_action` invocation: the final player
state, the single realized Move Outcome, and whether this invocation
routed through the `_apply_move_time_taken` time-accounting step. -/
structure MoveResult where
  you : player
  outcome : MoveOutcome
  applied_mtt : Bool
deriving DecidableEq

/-- `try_to_swap` (movement.cc:915-919): the destination occupant will
not attack and the actor is not confused, or both cells are sanctuary. -/
def try_to_swap_cond (m : monster) (confused sanct_you sanct_targ : Bool) :
    Bool :=
  m.wont_attack && !confused || sanct_you && sanct_targ

/-- The branch selected for an occupied (non-submerged) destination. -/
inductive occ_decision where
  /-- attempt the swap (`swap_check` then swap or stand still). -/
  | swap_try
  /-- visible neutral occupant refuses to make way. -/
  | refuse
  /-- the attack branch. -/
  | attack
  /-- `try_to_swap` held but a restraint applies: fall through to the
  beholder/fearmonger block messages. -/
  | fall_through
deriving DecidableEq

/-- The occupied-destination branch selection of `move_player_action`
(movement.cc:948-994), with `try_to_swap` from movement.cc:915-919:
swap is attempted when `try_to_swap` holds and no beholder or
fearmonger restrains the actor; otherwise a visible neutral occupant
(actor unconfused) refuses; any remaining occupant not eligible for a
swap is attacked; a swap-eligible occupant under restraint falls
through. -/
def _occupied_decision (m : monster)
    (confused sanct_you sanct_targ behold fmong : Bool) : occ_decision :=
  if try_to_swap_cond m confused sanct_you sanct_targ && !behold && !fmong then
    occ_decision.swap_try
  else if m.temp_att_neutral && !confused && m.visible then
    occ_decision.refuse
  else if !(try_to_swap_cond m confused sanct_you sanct_targ) then
    occ_decision.attack
  else
    occ_decision.fall_through

/-- The substituted direction of a confused move
(movement.cc:797-798): `move.x = random2(3) - 1; move.y = random2(3) - 1`. -/
def confused_move_of (rx ry : Fin 3) : coord_def :=
  ⟨(rx.val : Int) - 1, (ry.val : Int) - 1⟩

/-- Result of the confusion gate: either the invocation already returned,
or move resolution proceeds with a possibly substituted direction. -/
inductive GateResult where
  | done (r : MoveResult)
  | proceed (mv : coord_def) (you : player)
deriving DecidableEq

/-- The confusion gate of `move_player_action` (movement.cc:777-830):
stationary confused actors cannot move; the confused-move and barbed
confirmations may cancel; with probability 2/3 the direction is replaced
by a uniformly random one of the 9 relative offsets, the zero vector
ending the turn; a substituted move into an impassable or out-of-bounds
cell bumps, ending the turn. -/
def confusion_gate (env : Env) (rng : RNG) (move0 : coord_def)
    (you : player) : GateResult :=
  if !you.confused then GateResult.proceed move0 you
  else if you.stationary then
    GateResult.done ⟨you, MoveOutcome.cannot_move_stationary, false⟩
  else if cancel_confused_move env false then
    GateResult.done ⟨you, MoveOutcome.confused_prompt_cancel, false⟩
  else
    match cancel_barbed_move false env you with
    | (true, you1) => GateResult.done ⟨you1, MoveOutcome.barbed_cancel, false⟩
    | (false, you1) =>
      let move1 := if rng.conf_chance.val ≠ 0 then
                     confused_move_of rng.conf_rx rng.conf_ry
                   else move0
      if rng.conf_chance.val ≠ 0 && move1.origin then
        GateResult.done ⟨{ you1 with apply_berserk_penalty := true,
                                     turn_is_over := true },
                         MoveOutcome.too_confused, false⟩
      else
        let new_targ := you1.pos + move1
        if !env.in_bounds new_targ || !env.can_pass_through new_targ then
          GateResult.done ⟨{ you1 with turn_is_over := true,
                                       digging := false,
                                       apply_berserk_penalty := true },
                           MoveOutcome.confused_bump, false⟩
        else
          GateResult.proceed move1 you1

/-- The epilogue of `move_player_action` (movement.cc:1144-1166):
promote a starting run, set the berserk penalty flag, and hand off to
the external hasty-conduct / allied-trigger / acrobat collaborators; the
realized outcome is attack, a committed walk, or no move at all. -/
def move_player_action_epilogue (attacking walked dug swapped applied : Bool)
    (you : player) : MoveResult :=
  let you1 := if you.running_mode = RMODE_START then
                { you with running_mode := RMODE_CONTINUE }
              else you
  -- maybe_shift_abyss_around_player, did_god_conduct(DID_HASTY),
  -- wu_jian_post_move_effects, update_acrobat_status: external calls
  let you2 := { you1 with apply_berserk_penalty := !attacking }
  ⟨you2,
   if attacking then MoveOutcome.attack
   else if walked then MoveOutcome.walked dug swapped
   else MoveOutcome.no_move,
   applied⟩

/-- The trailing branch chain of `move_player_action`
(movement.cc:1089-1166), entered with the walk block's results: easy
door opening, the malign gateway, impassable-target messages, the
beholder and fearmonger restraint blocks, then the epilogue. -/
def move_player_action_close (env : Env) (mv targ : coord_def)
    (attacking swapped targ_pass walked dug applied : Bool)
    (beholder fmonger : Option monster) (you : player) : MoveResult :=
  if (env.travel_open_doors || !(you.running_mode ≠ 0)) && !attacking
      && feat_is_closed_door (env.grd targ) then
    ⟨(open_door_action env mv you).you, MoveOutcome.door_action, applied⟩
  else if !targ_pass && env.grd targ = DNGN_MALIGN_GATEWAY && !attacking
      && !you.stationary then
    if !env.disables_confirmations && !env.prompt_dangerous_portal_yes then
      ⟨you, MoveOutcome.portal_prompt_cancel, applied⟩
    else
      -- _entered_malign_portal: external blink and damage
      ⟨{ you with turn_is_over := true },
       MoveOutcome.entered_malign_portal, applied⟩
  else if !targ_pass && !attacking then
    ⟨{ stop_running you with turn_is_over := false },
     MoveOutcome.blocked_terrain, applied⟩
  else if beholder.isSome && !attacking then
    ⟨stop_running you, MoveOutcome.beholder_block, applied⟩
  else if fmonger.isSome && !attacking then
    ⟨stop_running you, MoveOutcome.fmonger_block, applied⟩
  else
    move_player_action_epilogue attacking walked dug swapped applied you

/-- The mutating part of the walk-commit block (movement.cc:1041-1085):
digging cost (`destroy_wall` and `noisy` are external calls; the swap's
`_swap_places` relocation and `apply_location_effects` act on the
external monster index; travel-trail bookkeeping is external), the
actual repositioning with its post-move effects when the position
really changes, the time-accounting step, then the turn-completion
flag. -/
def move_player_commit (env : Env) (rng : RNG) (targ : coord_def)
    (targ_pass : Bool) (you1 : player) : player :=
  let additional_time_taken := if you1.digging then BASELINE_DELAY / 5 else 0
  let old_pos := you1.pos
  let you2 := if you1.pos ≠ targ ∧ targ_pass then
                apply_cloud_trail env old_pos
                  (apply_noxious_bog env old_pos
                    (remove_ice_armour_movement
                      (apply_barbs_damage rng false
                        (move_player_to_grid env targ
                          (_clear_constriction_data
                            (remove_water_hold you1))))))
              else you1
  let you3 := _apply_move_time_taken env rng additional_time_taken you2
  { you3 with turn_is_over := true }

/-- The walk-commit block of `move_player_action` (movement.cc:1006-1086)
followed by the trailing branch chain: stumble and confirmation gates,
constriction escape, then `move_player_commit`.  After the block the
(reset) move flows into the trailing chain. -/
def move_player_action_tail (env : Env) (rng : RNG)
    (mv targ initial_position : coord_def)
    (lunged attacking moving swapped targ_pass : Bool)
    (beholder fmonger : Option monster) (you : player) : MoveResult :=
  if !attacking && targ_pass && moving && !beholder.isSome
      && !fmonger.isSome then
    if you.confused && env.is_feat_dangerous (env.grd targ) then
      ⟨{ you with apply_berserk_penalty := true, turn_is_over := true },
       MoveOutcome.confused_stumble, false⟩
    else if !you.confused && !env.check_moveto_walk then
      -- if we cancel this move after lunging, we end the turn
      if lunged then
        ⟨_finalize_cancelled_lunge_move env rng initial_position
           (stop_running you),
         MoveOutcome.cancelled_lunge_move, true⟩
      else
        ⟨{ stop_running you with turn_is_over := false },
         MoveOutcome.moveto_cancel, false⟩
    else
      let barbed := if !you.confused then cancel_barbed_move false env you
                    else (false, you)
      if barbed.1 then ⟨barbed.2, MoveOutcome.barbed_cancel, false⟩
      else
        let you1 := barbed.2
        if !env.attempt_escape_ok then
          ⟨you1, MoveOutcome.constricted_stuck, false⟩
        else
          -- move.reset(); request_autopickup()
          move_player_action_close env ⟨0, 0⟩ targ false swapped targ_pass
            true you1.digging true beholder fmonger
            (move_player_commit env rng targ targ_pass you1)
  else
    move_player_action_close env mv targ attacking swapped targ_pass
      false false false beholder fmonger you

/-- The resolution phase of `move_player_action` (movement.cc:932-1086):
the run-stop check, the occupied-destination resolution, the
fungus-terror check and the walk-commit tail, with the computed
`try_to_swap` inputs, restraints and passability as arguments. -/
def move_player_action_resolve (env : Env) (rng : RNG)
    (mv targ initial_position : coord_def) (lunged : Bool)
    (targ_monst : Option monster) (targ_pass : Bool)
    (beholder fmonger : Option monster) (you : player) : MoveResult :=
  if env.check_stop_running then
    if lunged then
      ⟨_finalize_cancelled_lunge_move env rng initial_position you,
       MoveOutcome.cancelled_lunge_move, true⟩
    else
      ⟨{ you with turn_is_over := false }, MoveOutcome.run_stop, false⟩
  else
    match targ_monst with
    | some m =>
      if !m.submerged then
        match _occupied_decision m you.confused (env.is_sanctuary you.pos)
            (env.is_sanctuary targ) beholder.isSome fmonger.isSome with
        | occ_decision.swap_try =>
          if env.swap_check_ok then
            move_player_action_tail env rng mv targ initial_position lunged
              false true true targ_pass beholder fmonger you
          else
            -- swap_check refused: stand still
            move_player_action_tail env rng mv targ initial_position lunged
              false false false targ_pass beholder fmonger (stop_running you)
        | occ_decision.refuse =>
          ⟨{ you with turn_is_over := false },
           MoveOutcome.neutral_refuse, false⟩
        | occ_decision.attack =>
          -- don't let the player freely locate invisible monsters
          if !m.visible && !you.confused && !env.check_moveto_walk then
            if lunged then
              ⟨_finalize_cancelled_lunge_move env rng initial_position
                 (stop_running you),
               MoveOutcome.cancelled_lunge_move, true⟩
            else
              ⟨{ stop_running you with turn_is_over := false },
               MoveOutcome.invis_prompt_cancel, false⟩
          else
            -- fight_melee(&you, targ_monst): external combat resolver
            move_player_action_tail env rng mv targ initial_position lunged
              true true false targ_pass beholder fmonger
              { you with turn_is_over := true, berserk_penalty := 0 }
        | occ_decision.fall_through =>
          move_player_action_tail env rng mv targ initial_position lunged
            false true false targ_pass beholder fmonger you
      else
        move_player_action_tail env rng mv targ initial_position lunged
          false true false targ_pass beholder fmonger you
    | none =>
      if you.form_fungus && !you.confused && you.nervous then
        -- too terrified to move while being watched
        ⟨{ stop_running you with turn_is_over := false },
         MoveOutcome.terrified, false⟩
      else
        move_player_action_tail env rng mv targ initial_position lunged
          false true false targ_pass beholder fmonger you

/-- The post-gate body of `move_player_action` (movement.cc:859-930):
bounds check, Fedhas plant passthrough, passability and digging
adjustment, and the `try_to_swap` / restraint computations, feeding the
resolution phase. -/
def move_player_action_core (env : Env) (rng : RNG)
    (mv initial_position : coord_def) (lunged : Bool) (you : player) :
    MoveResult :=
  let targ := you.pos + mv
  if !env.in_bounds targ then
    -- you can't walk out of bounds (digging-specific message only)
    ⟨you, MoveOutcome.out_of_bounds, false⟩
  else
    let targ_monst0 := env.monster_at targ
    let fedhas := (match targ_monst0 with
                   | some m => env.fedhas_passthrough m
                   | none => false) && !you.stationary
    -- moving on a plant takes 1.5 x normal move delay
    let you := if fedhas then
                 { you with time_taken :=
                     div_rand_round (you.time_taken * 3) 2 rng.fedhas_round }
               else you
    let targ_monst := if fedhas then none else targ_monst0
    let targ_pass0 := env.can_pass_through targ && !you.stationary
    let dig_ok := you.digging && env.feat_is_diggable (env.grd targ)
    let targ_pass := if you.digging then
                       (if dig_ok then true else targ_pass0)
                     else targ_pass0
    let you := if you.digging && !dig_ok then { you with digging := false }
               else you
    move_player_action_resolve env rng mv targ initial_position lunged
      targ_monst targ_pass
      (if you.confused then none else env.get_beholder targ)
      (if you.confused then none else env.get_fearmonger targ) you

/-- `move_player_action(move)` (movement.cc:754-1166): the move-commit
orchestrator.  Net escape, the confusion gate, the optional lunge, then
the core resolution on the (possibly updated) position. -/
def move_player_action (env : Env) (rng : RNG) (move0 : coord_def)
    (you0 : player) : MoveResult :=
  -- entry ASSERT: not in solid terrain barring the wizmode override
  if you0.attribute_held then
    -- free_self_from_net (external): one escape attempt takes the turn
    ⟨{ you0 with turn_is_over := true }, MoveOutcome.net_escape, false⟩
  else
    let initial_position := you0.pos
    match confusion_gate env rng move0 you0 with
    | GateResult.done r => r
    | GateResult.proceed mv you1 =>
      if you1.lunging then
        match _lunge_forward env rng mv you1 with
        | (spret.abort, you2) =>
          -- cancel the move entirely
          ⟨you2, MoveOutcome.lunge_abort, false⟩
        | (spret.success, you2) =>
          -- reset initial_position: the lunge moved us
          move_player_action_core env rng mv you2.pos true you2
        | (spret.fail, you2) =>
          move_player_action_core env rng mv initial_position false you2
      else
        move_player_action_core env rng mv initial_position false you1

/-- A declined barbed-skin confirmation leaves the player unchanged. -/
theorem cancel_barbed_true_frame (l : Bool) (env : Env) (you : player) :
    (cancel_barbed_move l env you).1 = true →
    (cancel_barbed_move l env you).2 = you := by
  unfold cancel_barbed_move
  repeat' split
  all_goals intro h
  all_goals first | rfl | simp at h

/-- A lunge that does not commit (fail or abort) leaves the player
unchanged. -/
theorem lunge_noncommit_frame (env : Env) (rng : RNG) (mv : coord_def)
    (you : player) :
    (_lunge_forward env rng mv you).1 ≠ spret.success →
    (_lunge_forward env rng mv you).2 = you := by
  unfold _lunge_forward
  cases hrep : env.is_repeating_cmd
  swap
  · intro; rfl
  simp only [hrep, Bool.false_eq_true, if_false]
  cases hst : (you.nervous || you.confused || you.stationary || you.constricted)
  swap
  · simp only [hst]; intro; trivial
  simp only [hst, Bool.false_eq_true, if_false]
  cases hscan : lunge_scan env (lunge_path you.pos mv)
  · simp only [hscan]; intro; trivial
  simp only [hscan]
  by_cases htgt : you.pos + mv.smul 1 = you.pos
  · rw [if_pos htgt]; intro; trivial
  rw [if_neg htgt]
  cases hbeh : (env.get_beholder (you.pos + mv.smul 1)).isSome
  swap
  · simp only [hbeh]; intro; trivial
  simp only [hbeh, Bool.false_eq_true, if_false]
  cases hfm : (env.get_fearmonger (you.pos + mv.smul 1)).isSome
  swap
  · simp only [hfm]; intro; trivial
  simp only [hfm, Bool.false_eq_true, if_false]
  cases hmon : (env.monster_at (you.pos + mv.smul 1)).isSome
  swap
  · simp only [hmon]; intro; trivial
  simp only [hmon, Bool.false_eq_true, if_false]
  cases hlava : feat_is_lava (env.grd (you.pos + mv.smul 1))
  swap
  · simp only [hlava]; intro; trivial
  simp only [hlava, Bool.false_eq_true, if_false]
  by_cases hdw : env.grd (you.pos + mv.smul 1) = DNGN_DEEP_WATER
                 ∨ env.grd (you.pos + mv.smul 1) = DNGN_TOXIC_BOG
  · rw [if_pos hdw]; intro; trivial
  rw [if_neg hdw]
  cases htw : env.trans_wall_blocking (you.pos + mv.smul 1)
  swap
  · simp only [htw]; intro; trivial
  simp only [htw, Bool.false_eq_true, if_false]
  cases hsol : cell_is_solid env (you.pos + mv.smul 1)
  swap
  · simp only [hsol]; intro; trivial
  simp only [hsol, Bool.false_eq_true, if_false]
  cases hcm : env.check_moveto_lunge
  · simp only [hcm, Bool.not_false]; intro; trivial
  simp only [hcm, Bool.not_true, Bool.false_eq_true, if_false]
  rcases hcb : cancel_barbed_move true env you with ⟨b, y1⟩
  cases b
  swap
  · simp only [hcb]
    intro
    have hfr := cancel_barbed_true_frame true env you
    rw [hcb] at hfr
    exact hfr rfl
  simp only [hcb]
  intro h
  exact absurd rfl h

/-- When the lunge tracer scan commits to a target at index `i` of the
path, no cell at or before index `i` is blocked: the scan never
continues past a solid, opaque, or (shallow water excepted)
terrain-impassable cell. -/
theorem lunge_scan_clear (env : Env) :
    ∀ (path : List coord_def) (i : Nat) (m : monster),
      lunge_scan env path = some (i, m) →
      i < path.length ∧
        ∀ j, j ≤ i → lunge_blocked env (path.getD j ⟨0, 0⟩) = false := by
  intro path
  induction path with
  | nil => intro i m h; simp [lunge_scan] at h
  | cons p rest ih =>
    intro i m h
    simp only [lunge_scan] at h
    cases hb : lunge_blocked env p
    · simp only [hb, Bool.false_eq_true, if_false] at h
      cases hmon : env.monster_at p with
      | none =>
        rw [hmon] at h
        rcases Option.map_eq_some'.mp h with ⟨⟨i', m'⟩, hrest, heq⟩
        injection heq with h1 h2
        subst h1
        subst h2
        rcases ih i' m' hrest with ⟨hlen, hclear⟩
        refine ⟨by simpa using Nat.succ_lt_succ hlen, ?_⟩
        intro j hj
        cases j with
        | zero => simpa using hb
        | succ j' =>
          simpa using hclear j' (Nat.le_of_succ_le_succ hj)
      | some mon =>
        rw [hmon] at h
        cases hvis : mon.visible
        · simp only [hvis, Bool.not_false, if_true] at h
          rcases Option.map_eq_some'.mp h with ⟨⟨i', m'⟩, hrest, heq⟩
          injection heq with h1 h2
          subst h1
          subst h2
          rcases ih i' m' hrest with ⟨hlen, hclear⟩
          refine ⟨by simpa using Nat.succ_lt_succ hlen, ?_⟩
          intro j hj
          cases j with
          | zero => simpa using hb
          | succ j' =>
            simpa using hclear j' (Nat.le_of_succ_le_succ hj)
        · simp only [hvis, Bool.not_true, Bool.false_eq_true, if_false] at h
          cases hkind : (mon.friendly || mon.neutral || mon.firewood)
          · simp only [hkind, Bool.false_eq_true, if_false] at h
            injection Option.some.inj h with h1 h2
            subst h1
            refine ⟨by simp, ?_⟩
            intro j hj
            interval_cases j
            simpa using hb
          · simp [hkind] at h
    · simp [hb] at h

/-- An all-floor, monster-free, prompt-friendly environment used by the
concrete witnesses below. -/
def wEnv : Env where
  grd := fun _ => DNGN_FLOOR
  monster_at := fun _ => none
  in_bounds := fun _ => true
  is_sanctuary := fun _ => false
  trans_wall_blocking := fun _ => false
  get_beholder := fun _ => none
  get_fearmonger := fun _ => none
  can_pass_through := fun _ => true
  feat_is_traversable := fun f => !feat_is_solid f
  feat_is_diggable := fun f => f = DNGN_ROCK_WALL
  is_feat_dangerous := fun _ => false
  fedhas_passthrough := fun _ => false
  player_movement_speed := 10
  confused_danger := false
  confused_prompt_yes := true
  barbs_prompt_yes := true
  check_moveto_lunge := true
  check_moveto_walk := true
  swap_check_ok := true
  mon_swap_dest := ⟨0, 0⟩
  check_stop_running := false
  attempt_escape_ok := true
  is_repeating_cmd := false
  disables_confirmations := false
  easy_door := true
  travel_open_doors := false
  you_are_delayed_run := false
  door_vetoed := fun _ => false
  prompt_compass := ⟨0, 0⟩
  prompt_dangerous_portal_yes := true
  find_connected_identical := fun p => [p]

/-- A plain unencumbered player at (10, 10) used by the witnesses. -/
def wYou : player where
  pos := ⟨10, 10⟩
  confused := false
  stationary := false
  nervous := false
  constricted := false
  lunging := false
  attribute_held := false
  digging := false
  form_fungus := false
  turn_is_over := false
  apply_berserk_penalty := false
  berserk_penalty := 0
  time_taken := 10
  duration_barbs := 0
  attribute_barbs_pow := 0
  duration_icy_armour := 0
  duration_water_hold := 0
  duration_no_hop := 0
  duration_noxious_bog := 0
  duration_cloud_trail := 0
  props_barbs_move_key := false
  running_mode := 0
  running_travel_speed := 0

/-- A fixed draw assignment used by the witnesses. -/
def wRng : RNG where
  conf_chance := 0
  conf_rx := 0
  conf_ry := 0
  mtt_round := 0
  fedhas_round := 0
  barbs_snap := 1

/-- A visible non-submerged hostile monster. -/
def wHostile : monster where
  wont_attack := false
  friendly := false
  neutral := false
  temp_att_neutral := false
  firewood := false
  visible := true
  submerged := false

/-- `wEnv` with `wHostile` standing two cells east of `wYou`. -/
def wEnvL : Env :=
  { wEnv with
      monster_at := fun p => if p = ⟨12, 10⟩ then some wHostile else none }

/-- C3: the entry assertion of `_lunge_forward` does not enforce an
in-range delta.  As written it compares the absolute position against
the relative move: it passes at pos (10,10) for the far out-of-range
delta (5,5), and would fire at pos (2,2) for the legal diagonal (1,1) —
contradicting the source's own comment, which says the assertion guards
against a move beyond [-1,1]. -/
theorem C3_lunge_assert_eval :
    _lunge_assert_cond ⟨10, 10⟩ ⟨5, 5⟩ = true ∧ delta_in_range ⟨5, 5⟩ = false
  ∧ _lunge_assert_cond ⟨2, 2⟩ ⟨1, 1⟩ = false
  ∧ delta_in_range ⟨1, 1⟩ = true := by
  decide

/-- C6: a lunge that ends without committing to a valid hostile target
(the fail result) leaves the player — position, time-taken accumulator
and every status duration — unchanged; and whenever the tracer scan
commits to a target, every path cell up to and including the target's is
neither solid, opaque, nor terrain-impassable (shallow water excepted). -/
theorem C6_lunge_fail_frame_and_tracer :
    (∀ (env : Env) (rng : RNG) (mv : coord_def) (you : player),
       (_lunge_forward env rng mv you).1 = spret.fail →
       (_lunge_forward env rng mv you).2 = you)
  ∧ (∀ (env : Env) (path : List coord_def) (i : Nat) (m : monster),
       lunge_scan env path = some (i, m) →
       i < path.length ∧
         ∀ j, j ≤ i → lunge_blocked env (path.getD j ⟨0, 0⟩) = false) := by
  constructor
  · intro env rng mv you h
    apply lunge_noncommit_frame
    rw [h]
    decide
  · intro env
    exact lunge_scan_clear env

/-- Witness for C6 at concrete inputs: in the monster-free environment
the lunge fails and the state is exactly preserved; in `wEnvL` the scan
commits to the hostile at index 1 with both leading cells clear. -/
theorem C6_witness :
    ((_lunge_forward wEnv wRng ⟨1, 0⟩ wYou).1 = spret.fail
      ∧ (_lunge_forward wEnv wRng ⟨1, 0⟩ wYou).2 = wYou)
  ∧ (lunge_scan wEnvL (lunge_path ⟨10, 10⟩ ⟨1, 0⟩) = some (1, wHostile)
      ∧ (1 < (lunge_path ⟨10, 10⟩ ⟨1, 0⟩).length
         ∧ ∀ j, j ≤ 1 →
             lunge_blocked wEnvL
               ((lunge_path ⟨10, 10⟩ ⟨1, 0⟩).getD j ⟨0, 0⟩) = false)) := by
  refine ⟨⟨by decide, C6_lunge_fail_frame_and_tracer.1 wEnv wRng ⟨1, 0⟩ wYou
            (by decide)⟩,
          by decide, C6_lunge_fail_frame_and_tracer.2 wEnvL
            (lunge_path ⟨10, 10⟩ ⟨1, 0⟩) 1 wHostile (by decide)⟩

/-- C9: `_apply_move_time_taken` computes base time times the
movement-speed multiplier, divided by 10 with randomized rounding
(always the floor or the floor plus one of the exact quotient), plus the
additional fixed cost, and — while a run with a configured travel speed
is active — floored by `div_round_up 100 travel_speed`, which is exactly
the ceiling of 100 / travel_speed. -/
theorem C9_move_time_formula :
    (∀ (env : Env) (rng : RNG) (add : Nat) (you : player),
       (_apply_move_time_taken env rng add you).time_taken =
         (if you.running_mode ≠ 0 ∧ you.running_travel_speed ≠ 0 then
            max (div_rand_round (you.time_taken * env.player_movement_speed)
                   10 rng.mtt_round + add)
              (div_round_up 100 you.running_travel_speed)
          else
            div_rand_round (you.time_taken * env.player_movement_speed)
              10 rng.mtt_round + add))
  ∧ (∀ n r, div_rand_round n 10 r = n / 10
       ∨ div_rand_round n 10 r = n / 10 + 1)
  ∧ (∀ ts, ts ≠ 0 →
       100 ≤ ts * div_round_up 100 ts
       ∧ ts * div_round_up 100 ts < 100 + ts) := by
  refine ⟨?_, ?_, ?_⟩
  · intro env rng add you
    rfl
  · intro n r
    unfold div_rand_round
    split <;> simp
  · intro ts hts
    have e : 100 + ts - 1 = 99 + ts := by omega
    unfold div_round_up
    rw [e]
    have hq := Nat.div_add_mod (99 + ts) ts
    have hr : (99 + ts) % ts < ts := Nat.mod_lt _ (Nat.pos_of_ne_zero hts)
    omega

/-- Witness for C9 at travel speed 3: the run floor is 34 = ceil(100/3). -/
theorem C9_witness :
    (3 : Nat) ≠ 0 ∧ (100 ≤ 3 * div_round_up 100 3
      ∧ 3 * div_round_up 100 3 < 100 + 3) :=
  ⟨by decide, C9_move_time_formula.2.2 3 (by decide)⟩

/-- C4: in the occupied-destination resolution, the swap branch is
selected only when the occupant will not attack and the actor is not
confused, or both cells are sanctuary (`try_to_swap`); and an occupied
destination for which neither the swap condition nor the visible-neutral
refuse condition holds is resolved to the attack branch. -/
theorem C4_swap_attack_selection :
    (∀ (m : monster) (confused sy st bh fm : Bool),
       _occupied_decision m confused sy st bh fm = occ_decision.swap_try →
       try_to_swap_cond m confused sy st = true)
  ∧ (∀ (m : monster) (confused sy st bh fm : Bool),
       try_to_swap_cond m confused sy st = false →
       (m.temp_att_neutral && !confused && m.visible) = false →
       _occupied_decision m confused sy st bh fm = occ_decision.attack) := by
  constructor
  · intro m confused sy st bh fm h
    by_cases h1 : try_to_swap_cond m confused sy st = true
    · exact h1
    · exfalso
      simp only [Bool.not_eq_true] at h1
      simp only [_occupied_decision, h1, Bool.false_and, Bool.false_eq_true,
        if_false, Bool.not_false, if_true] at h
      split at h <;> simp_all
  · intro m confused sy st bh fm h1 h2
    simp [_occupied_decision, h1, h2]

/-- A visible friendly monster (wont-attack disposition). -/
def wFriendly : monster where
  wont_attack := true
  friendly := true
  neutral := false
  temp_att_neutral := false
  firewood := false
  visible := true
  submerged := false

/-- Witness for C4: the hostile monster yields the attack branch, and the
swap branch selected for the friendly one implies `try_to_swap`. -/
theorem C4_witness :
    (try_to_swap_cond wHostile false false false = false
      ∧ (wHostile.temp_att_neutral && !false && wHostile.visible) = false
      ∧ _occupied_decision wHostile false false false false false
          = occ_decision.attack)
    ∧ (_occupied_decision wFriendly false false false false false
          = occ_decision.swap_try
        ∧ try_to_swap_cond wFriendly false false false = true) := by
  refine ⟨⟨by decide, by decide, ?_⟩, by decide, ?_⟩
  · exact C4_swap_attack_selection.2 wHostile false false false false false
      (by decide) (by decide)
  · exact C4_swap_attack_selection.1 wFriendly false false false false false
      (by decide)

/-- When no scanned neighbour matches the feature, the `_check_adjacent`
loop leaves both the count and the delta untouched. -/
theorem check_adjacent_go_nomatch (env : Env) (feat : dungeon_feature_type)
    (pos : coord_def) :
    ∀ (l : List coord_def) (n : Nat) (d : coord_def)
      (doors : List coord_def),
      (∀ off ∈ l, env.grd (pos + off) ≠ feat) →
      check_adjacent_go env feat pos l n d doors = (n, d) := by
  intro l
  induction l with
  | nil => intro n d doors _; rfl
  | cons off rest ih =>
    intro n d doors hall
    have h0 : env.grd (pos + off) ≠ feat := hall off (by simp)
    simp only [check_adjacent_go]
    rw [if_neg h0]
    exact ih n d doors (fun o ho => hall o (List.mem_cons_of_mem _ ho))

/-- `_check_adjacent` reports zero matches and an unchanged delta when no
neighbour holds the feature. -/
theorem check_adjacent_nomatch (env : Env) (feat : dungeon_feature_type)
    (pos d0 : coord_def)
    (hall : ∀ off ∈ adjacent_offsets, env.grd (pos + off) ≠ feat) :
    _check_adjacent env feat pos d0 = (0, d0) :=
  check_adjacent_go_nomatch env feat pos adjacent_offsets 0 d0 [] hall

/-- C8: a door-open or door-close action with the zero direction vector,
an unheld unconfused actor and no adjacent cell in the applicable door
state (gates merged or not, no cell matches at all) emits the
explanatory no-door message, consumes no turn and mutates nothing: the
result carries the unchanged player and an outcome that invokes no
external door transition. -/
theorem C8_zero_adjacent_door_actions :
    (∀ (env : Env) (you : player),
       you.attribute_held = false → you.confused = false →
       (∀ off ∈ adjacent_offsets,
          env.grd (you.pos + off) ≠ DNGN_CLOSED_DOOR
          ∧ env.grd (you.pos + off) ≠ DNGN_CLOSED_CLEAR_DOOR
          ∧ env.grd (you.pos + off) ≠ DNGN_RUNED_DOOR
          ∧ env.grd (you.pos + off) ≠ DNGN_RUNED_CLEAR_DOOR) →
       open_door_action env ⟨0, 0⟩ you = ⟨you, DoorOutcome.nothing_to_open⟩)
  ∧ (∀ (env : Env) (you : player),
       you.attribute_held = false → you.confused = false →
       (∀ off ∈ adjacent_offsets,
          env.grd (you.pos + off) ≠ DNGN_OPEN_DOOR
          ∧ env.grd (you.pos + off) ≠ DNGN_OPEN_CLEAR_DOOR) →
       close_door_action env ⟨0, 0⟩ you
         = ⟨you, DoorOutcome.nothing_to_close⟩) := by
  constructor
  · intro env you hheld hconf hall
    have h1 := check_adjacent_nomatch env DNGN_CLOSED_DOOR you.pos ⟨0, 0⟩
      (fun o ho => (hall o ho).1)
    have h2 := check_adjacent_nomatch env DNGN_CLOSED_CLEAR_DOOR you.pos ⟨0, 0⟩
      (fun o ho => (hall o ho).2.1)
    have h3 := check_adjacent_nomatch env DNGN_RUNED_DOOR you.pos ⟨0, 0⟩
      (fun o ho => (hall o ho).2.2.1)
    have h4 := check_adjacent_nomatch env DNGN_RUNED_CLEAR_DOOR you.pos ⟨0, 0⟩
      (fun o ho => (hall o ho).2.2.2)
    simp [open_door_action, hheld, hconf, coord_def.origin, h1, h2, h3, h4]
  · intro env you hheld hconf hall
    have h1 := check_adjacent_nomatch env DNGN_OPEN_DOOR you.pos ⟨0, 0⟩
      (fun o ho => (hall o ho).1)
    have h2 := check_adjacent_nomatch env DNGN_OPEN_CLEAR_DOOR you.pos ⟨0, 0⟩
      (fun o ho => (hall o ho).2)
    simp [close_door_action, hheld, hconf, coord_def.origin, h1, h2]

/-- Witness for C8 in the all-floor environment. -/
theorem C8_witness :
    (open_door_action wEnv ⟨0, 0⟩ wYou = ⟨wYou, DoorOutcome.nothing_to_open⟩)
  ∧ (close_door_action wEnv ⟨0, 0⟩ wYou
      = ⟨wYou, DoorOutcome.nothing_to_close⟩) :=
  ⟨C8_zero_adjacent_door_actions.1 wEnv wYou (by decide) (by decide)
     (by decide),
   C8_zero_adjacent_door_actions.2 wEnv wYou (by decide) (by decide)
     (by decide)⟩

/-- C5: when the destination holds a non-submerged neutral monster
visible to the unconfused actor and the swap condition does not apply,
the move is refused: the explanatory refuse message is emitted (the
`neutral_refuse` outcome), the turn-completion flag is left unset, and
the actor's position and time-taken are unchanged. -/
theorem C5_neutral_refuse (env : Env) (rng : RNG) (mv : coord_def)
    (you : player) (m : monster)
    (hheld : you.attribute_held = false)
    (hconf : you.confused = false)
    (hlun : you.lunging = false)
    (hin : env.in_bounds (you.pos + mv) = true)
    (hmon : env.monster_at (you.pos + mv) = some m)
    (hfed : env.fedhas_passthrough m = false)
    (hsub : m.submerged = false)
    (hneu : m.temp_att_neutral = true)
    (hvis : m.visible = true)
    (hswap : try_to_swap_cond m false (env.is_sanctuary you.pos)
               (env.is_sanctuary (you.pos + mv)) = false)
    (hstop : env.check_stop_running = false) :
    (move_player_action env rng mv you).outcome = MoveOutcome.neutral_refuse
    ∧ (move_player_action env rng mv you).you.turn_is_over = false
    ∧ (move_player_action env rng mv you).you.pos = you.pos
    ∧ (move_player_action env rng mv you).you.time_taken = you.time_taken := by
  simp [move_player_action, confusion_gate, move_player_action_core,
    move_player_action_resolve, _occupied_decision, hheld, hconf, hlun, hin,
    hmon, hfed, hsub, hneu, hvis, hswap, hstop, apply_ite]

/-- A visible non-submerged plain-neutral monster. -/
def wNeutral : monster where
  wont_attack := false
  friendly := false
  neutral := true
  temp_att_neutral := true
  firewood := false
  visible := true
  submerged := false

/-- `wEnv` with `wNeutral` standing one cell east of `wYou`. -/
def wEnvN : Env :=
  { wEnv with
      monster_at := fun p => if p = ⟨11, 10⟩ then some wNeutral else none }

/-- Witness for C5: moving east into `wNeutral` is refused with no turn
consumed and the player untouched. -/
theorem C5_witness :
    (move_player_action wEnvN wRng ⟨1, 0⟩ wYou).outcome
      = MoveOutcome.neutral_refuse
    ∧ (move_player_action wEnvN wRng ⟨1, 0⟩ wYou).you.turn_is_over = false
    ∧ (move_player_action wEnvN wRng ⟨1, 0⟩ wYou).you.pos = wYou.pos
    ∧ (move_player_action wEnvN wRng ⟨1, 0⟩ wYou).you.time_taken
        = wYou.time_taken :=
  C5_neutral_refuse wEnvN wRng ⟨1, 0⟩ wYou wNeutral rfl rfl rfl (by decide)
    (by decide) rfl rfl rfl rfl (by decide) rfl

/-- C7: the confusion gate redirects a confused move with probability
2/3 (the `one_chance_in(3)` draw fails on 2 of its 3 equiprobable
values), the substituted direction is uniform over the 9 relative
offsets including the zero vector (each offset arises from exactly one
of the 9 equiprobable draw pairs), and a zero-vector substitution ends
the turn with the too-confused message and no movement. -/
theorem C7_confused_randomization :
    ((Finset.univ.filter (fun d : Fin 3 => d.val ≠ 0)).card = 2
      ∧ (Finset.univ : Finset (Fin 3)).card = 3)
  ∧ (∀ mv : coord_def, -1 ≤ mv.x ∧ mv.x ≤ 1 ∧ -1 ≤ mv.y ∧ mv.y ≤ 1 →
       (Finset.univ.filter
         (fun rr : Fin 3 × Fin 3 => confused_move_of rr.1 rr.2 = mv)).card
         = 1)
  ∧ (∀ (env : Env) (rng : RNG) (mv : coord_def) (you : player),
       you.attribute_held = false → you.confused = true →
       you.stationary = false →
       cancel_confused_move env false = false →
       cancel_barbed_move false env you = (false, you) →
       rng.conf_chance.val ≠ 0 →
       confused_move_of rng.conf_rx rng.conf_ry = ⟨0, 0⟩ →
       (move_player_action env rng mv you).outcome = MoveOutcome.too_confused
       ∧ (move_player_action env rng mv you).you.turn_is_over = true
       ∧ (move_player_action env rng mv you).you.pos = you.pos) := by
  refine ⟨⟨by decide, by decide⟩, ?_, ?_⟩
  · rintro ⟨x, y⟩ ⟨hx1, hx2, hy1, hy2⟩
    simp only at hx1 hx2 hy1 hy2
    interval_cases x <;> interval_cases y <;> decide
  · intro env rng mv you hheld hconf hstat hcanc hbarb hchance horigin
    simp [move_player_action, confusion_gate, hheld, hconf, hstat, hcanc,
      hbarb, hchance, horigin, coord_def.origin]

/-- `wYou`, but confused. -/
def wYouConf : player := { wYou with confused := true }

/-- Draws that redirect the confused move to the zero vector. -/
def wRngZero : RNG := { wRng with conf_chance := 1, conf_rx := 1, conf_ry := 1 }

/-- Witness for C7: the east offset arises from exactly one draw pair,
and the zero-vector redirect ends the turn in place. -/
theorem C7_witness :
    ((Finset.univ.filter
        (fun rr : Fin 3 × Fin 3 =>
          confused_move_of rr.1 rr.2 = (⟨1, 0⟩ : coord_def))).card = 1)
  ∧ ((move_player_action wEnv wRngZero ⟨1, 0⟩ wYouConf).outcome
        = MoveOutcome.too_confused
      ∧ (move_player_action wEnv wRngZero ⟨1, 0⟩ wYouConf).you.turn_is_over
          = true
      ∧ (move_player_action wEnv wRngZero ⟨1, 0⟩ wYouConf).you.pos
          = wYouConf.pos) :=
  ⟨C7_confused_randomization.2.1 ⟨1, 0⟩ (by decide),
   C7_confused_randomization.2.2 wEnv wRngZero ⟨1, 0⟩ wYouConf rfl rfl rfl
     (by decide) (by decide) (by decide) (by decide)⟩

theorem epilogue_no_restraint (attacking walked dug swapped applied : Bool)
    (you : player) :
    (move_player_action_epilogue attacking walked dug swapped applied
       you).outcome ≠ MoveOutcome.beholder_block
    ∧ (move_player_action_epilogue attacking walked dug swapped applied
       you).outcome ≠ MoveOutcome.fmonger_block := by
  unfold move_player_action_epilogue
  constructor <;> (repeat' split) <;> simp

theorem close_no_restraint (env : Env) (mv targ : coord_def)
    (attacking swapped targ_pass walked dug applied : Bool) (you : player) :
    (move_player_action_close env mv targ attacking swapped targ_pass walked
       dug applied none none you).outcome ≠ MoveOutcome.beholder_block
    ∧ (move_player_action_close env mv targ attacking swapped targ_pass
       walked dug applied none none you).outcome
        ≠ MoveOutcome.fmonger_block := by
  unfold move_player_action_close
  constructor <;> (repeat' split) <;>
    solve
      | exact (epilogue_no_restraint attacking walked dug swapped applied _).1
      | exact (epilogue_no_restraint attacking walked dug swapped applied _).2
      | simp_all

theorem tail_no_restraint (env : Env) (rng : RNG)
    (mv targ initial_position : coord_def)
    (lunged attacking moving swapped targ_pass : Bool) (you : player) :
    (move_player_action_tail env rng mv targ initial_position lunged attacking
       moving swapped targ_pass none none you).outcome
        ≠ MoveOutcome.beholder_block
    ∧ (move_player_action_tail env rng mv targ initial_position lunged
       attacking moving swapped targ_pass none none you).outcome
        ≠ MoveOutcome.fmonger_block := by
  unfold move_player_action_tail
  rcases hcb : cancel_barbed_move false env you with ⟨b, y1⟩
  simp only [hcb]
  constructor <;> cases b <;> (repeat' split) <;>
    solve
      | exact (close_no_restraint env _ _ _ _ _ _ _ _ _).1
      | exact (close_no_restraint env _ _ _ _ _ _ _ _ _).2
      | simp_all

theorem resolve_no_restraint (env : Env) (rng : RNG)
    (mv targ initial_position : coord_def) (lunged : Bool)
    (targ_monst : Option monster) (targ_pass : Bool) (you : player) :
    (move_player_action_resolve env rng mv targ initial_position lunged
       targ_monst targ_pass none none you).outcome
        ≠ MoveOutcome.beholder_block
    ∧ (move_player_action_resolve env rng mv targ initial_position lunged
       targ_monst targ_pass none none you).outcome
        ≠ MoveOutcome.fmonger_block := by
  unfold move_player_action_resolve
  constructor <;> (repeat' split) <;>
    solve
      | exact (tail_no_restraint env rng mv targ initial_position lunged
          _ _ _ _ _).1
      | exact (tail_no_restraint env rng mv targ initial_position lunged
          _ _ _ _ _).2
      | simp_all

theorem cancel_barbed_pres (l : Bool) (env : Env) (y : player) :
    (cancel_barbed_move l env y).2.confused = y.confused
    ∧ (cancel_barbed_move l env y).2.lunging = y.lunging := by
  unfold cancel_barbed_move
  repeat' split
  all_goals exact ⟨rfl, rfl⟩

theorem gate_done_no_restraint (env : Env) (rng : RNG) (mv : coord_def)
    (you : player) (r : MoveResult)
    (h : confusion_gate env rng mv you = GateResult.done r) :
    r.outcome ≠ MoveOutcome.beholder_block
    ∧ r.outcome ≠ MoveOutcome.fmonger_block := by
  unfold confusion_gate at h
  rcases hcb : cancel_barbed_move false env you with ⟨b, y1⟩
  simp only [hcb] at h
  repeat' split at h
  all_goals solve
    | (cases h)
    | (cases h; exact ⟨by simp, by simp⟩)

theorem gate_proceed_pres (env : Env) (rng : RNG) (mv : coord_def)
    (you : player) (mv1 : coord_def) (you1 : player)
    (h : confusion_gate env rng mv you = GateResult.proceed mv1 you1) :
    you1.confused = you.confused ∧ you1.lunging = you.lunging := by
  unfold confusion_gate at h
  rcases hcb : cancel_barbed_move false env you with ⟨b, y1⟩
  have h2 : (cancel_barbed_move false env you).2 = y1 := by rw [hcb]
  have hc : y1.confused = you.confused := by
    rw [← h2]; exact (cancel_barbed_pres false env you).1
  have hl : y1.lunging = you.lunging := by
    rw [← h2]; exact (cancel_barbed_pres false env you).2
  simp only [hcb] at h
  repeat' split at h
  all_goals try cases h
  all_goals try exact ⟨rfl, rfl⟩
  all_goals simp_all


theorem lunge_confused_fail (env : Env) (rng : RNG) (mv : coord_def)
    (you : player) (h : you.confused = true) :
    _lunge_forward env rng mv you = (spret.fail, you) := by
  unfold _lunge_forward
  cases hrep : env.is_repeating_cmd
  · simp [hrep, h]
  · simp [hrep]

theorem core_confused_no_restraint (env : Env) (rng : RNG)
    (mv initial_position : coord_def) (lunged : Bool) (you : player)
    (hconf : you.confused = true) :
    (move_player_action_core env rng mv initial_position lunged you).outcome
      ≠ MoveOutcome.beholder_block
    ∧ (move_player_action_core env rng mv initial_position lunged
        you).outcome ≠ MoveOutcome.fmonger_block := by
  unfold move_player_action_core
  simp only [hconf, apply_ite player.confused, ite_self]
  cases hib : (!env.in_bounds (you.pos + mv))
  · simp only [hib, Bool.false_eq_true, if_false]
    exact resolve_no_restraint env rng mv _ initial_position lunged _ _ _
  · simp only [hib, if_true]
    exact ⟨by simp, by simp⟩

/-- C10: a confused actor's move never realizes the beholder or
fearmonger restraint outcome, whatever monsters are adjacent: both
restraint lookups are skipped while confused, so the named block
messages are unreachable. -/
theorem C10_confused_ignores_restraints (env : Env) (rng : RNG)
    (mv : coord_def) (you : player) (hconf : you.confused = true) :
    (move_player_action env rng mv you).outcome ≠ MoveOutcome.beholder_block
    ∧ (move_player_action env rng mv you).outcome
        ≠ MoveOutcome.fmonger_block := by
  unfold move_player_action
  cases hheld : you.attribute_held
  swap
  · simp only [hheld, if_true]
    exact ⟨by simp, by simp⟩
  simp only [hheld, Bool.false_eq_true, if_false]
  cases hg : confusion_gate env rng mv you with
  | done r => exact gate_done_no_restraint env rng mv you r hg
  | proceed mv1 you1 =>
    have hpres := gate_proceed_pres env rng mv you mv1 you1 hg
    have hc1 : you1.confused = true := by rw [hpres.1, hconf]
    cases hl : you1.lunging
    · simp only [hl, Bool.false_eq_true, if_false]
      exact core_confused_no_restraint env rng mv1 you.pos false you1 hc1
    · simp only [hl, if_true]
      rw [lunge_confused_fail env rng mv1 you1 hc1]
      exact core_confused_no_restraint env rng mv1 you.pos false you1 hc1

/-- Witness for C10: with a beholder adjacent but the actor confused,
the realized outcome is not a restraint block. -/
theorem C10_witness :
    (move_player_action { wEnv with get_beholder := fun _ => some wHostile }
       wRng ⟨1, 0⟩ wYouConf).outcome ≠ MoveOutcome.beholder_block
    ∧ (move_player_action { wEnv with get_beholder := fun _ => some wHostile }
       wRng ⟨1, 0⟩ wYouConf).outcome ≠ MoveOutcome.fmonger_block :=
  C10_confused_ignores_restraints
    { wEnv with get_beholder := fun _ => some wHostile } wRng ⟨1, 0⟩
    wYouConf rfl

/-- C1 (amended): the movement-commit path routes through
`_apply_move_time_taken` before returning with the turn-completion flag
set; but the confused-move bump path ends the turn without passing
through that step (as do the other early turn-consuming returns). -/
theorem C1_time_accounting_routes :
    (∀ (env : Env) (rng : RNG) (mv : coord_def) (you : player),
       you.attribute_held = false → you.confused = false →
       you.lunging = false → you.stationary = false → you.digging = false →
       you.form_fungus = false →
       env.in_bounds (you.pos + mv) = true →
       env.monster_at (you.pos + mv) = none →
       env.can_pass_through (you.pos + mv) = true →
       env.get_beholder (you.pos + mv) = none →
       env.get_fearmonger (you.pos + mv) = none →
       env.check_stop_running = false →
       env.check_moveto_walk = true →
       you.duration_barbs = 0 →
       env.attempt_escape_ok = true →
       feat_is_closed_door (env.grd (you.pos + mv)) = false →
       (move_player_action env rng mv you).applied_mtt = true
       ∧ (move_player_action env rng mv you).you.turn_is_over = true
       ∧ (move_player_action env rng mv you).outcome
           = MoveOutcome.walked false false)
  ∧ (∀ (env : Env) (rng : RNG) (mv : coord_def) (you : player),
       you.attribute_held = false → you.confused = true →
       you.stationary = false →
       cancel_confused_move env false = false →
       cancel_barbed_move false env you = (false, you) →
       rng.conf_chance.val ≠ 0 →
       (confused_move_of rng.conf_rx rng.conf_ry).origin = false →
       env.can_pass_through
         (you.pos + confused_move_of rng.conf_rx rng.conf_ry) = false →
       (move_player_action env rng mv you).you.turn_is_over = true
       ∧ (move_player_action env rng mv you).applied_mtt = false
       ∧ (move_player_action env rng mv you).outcome
           = MoveOutcome.confused_bump) := by
  constructor
  · intro env rng mv you hheld hconf hlun hstat hdig hfun hin hmon hpass
      hbeh hfm hstop hmw hbarbs hesc hdoor
    simp [move_player_action, confusion_gate, move_player_action_core,
      move_player_action_resolve, move_player_action_tail,
      move_player_action_close, move_player_action_epilogue,
      move_player_commit, cancel_barbed_move, hheld, hconf, hlun, hstat,
      hdig, hfun, hin, hmon, hpass, hbeh, hfm, hstop, hmw, hbarbs, hesc,
      hdoor, apply_ite player.turn_is_over, ite_self]
  · intro env rng mv you hheld hconf hstat hcanc hbarb hchance horigin hpass
    simp [move_player_action, confusion_gate, hheld, hconf, hstat, hcanc,
      hbarb, hchance, horigin, hpass]

/-- `wEnv` with nothing passable: a confused substituted move bumps. -/
def wEnvBump : Env := { wEnv with can_pass_through := fun _ => false }

/-- Draws that redirect the confused move to the east offset (1, 0). -/
def wRngBump : RNG := { wRng with conf_chance := 1, conf_rx := 2, conf_ry := 1 }

/-- C1 (counterexample): a concrete confused-bump invocation sets the
turn-completion flag yet never routes through `_apply_move_time_taken`,
refuting the claim that every turn-consuming path does. -/
theorem C1_counterexample :
    (move_player_action wEnvBump wRngBump ⟨1, 0⟩ wYouConf).you.turn_is_over
      = true
    ∧ (move_player_action wEnvBump wRngBump ⟨1, 0⟩ wYouConf).applied_mtt
        = false
    ∧ (move_player_action wEnvBump wRngBump ⟨1, 0⟩ wYouConf).outcome
        = MoveOutcome.confused_bump := by
  decide

/-- Witness for C1 (amended) at concrete inputs: a plain walk applies
the time-accounting step; the concrete bump consumes the turn without
it. -/
theorem C1_witness :
    ((move_player_action wEnv wRng ⟨1, 0⟩ wYou).applied_mtt = true
      ∧ (move_player_action wEnv wRng ⟨1, 0⟩ wYou).you.turn_is_over = true
      ∧ (move_player_action wEnv wRng ⟨1, 0⟩ wYou).outcome
          = MoveOutcome.walked false false)
  ∧ ((move_player_action wEnvBump wRngBump ⟨1, 0⟩ wYouConf).you.turn_is_over
        = true
      ∧ (move_player_action wEnvBump wRngBump ⟨1, 0⟩ wYouConf).applied_mtt
          = false
      ∧ (move_player_action wEnvBump wRngBump ⟨1, 0⟩ wYouConf).outcome
          = MoveOutcome.confused_bump) :=
  ⟨C1_time_accounting_routes.1 wEnv wRng ⟨1, 0⟩ wYou rfl rfl rfl rfl rfl rfl
     (by decide) (by decide) (by decide) (by decide) (by decide) rfl rfl rfl
     rfl (by decide),
   C1_time_accounting_routes.2 wEnvBump wRngBump ⟨1, 0⟩ wYouConf rfl rfl rfl
     (by decide) (by decide) (by decide) (by decide) (by decide)⟩

/-- `wYou` with the lunge capability active. -/
def wYouLunge : player := { wYou with lunging := true }

/-- `wEnvL` where the lunge's dangerous-terrain confirmation is
declined, so `_lunge_forward` aborts. -/
def wEnvAbort : Env := { wEnvL with check_moveto_lunge := false }

/-- C2 (counterexample): at a concrete input where the lunge returns
the abort result, `move_player_action` returns with the player exactly
unchanged — no time cost applied, turn-completion flag still unset —
refuting the claim that the caller still applies the turn-ending
bookkeeping on a lunge abort. -/
theorem C2_counterexample :
    move_player_action wEnvAbort wRng ⟨1, 0⟩ wYouLunge
      = ⟨wYouLunge, MoveOutcome.lunge_abort, false⟩
    ∧ wYouLunge.turn_is_over = false
    ∧ (move_player_action wEnvAbort wRng ⟨1, 0⟩ wYouLunge).you.time_taken
        = wYouLunge.time_taken := by
  decide

/-- C2 (amended): a lunge abort cancels the player action entirely —
the caller returns with the player unchanged and no time accounting;
the turn-ending bookkeeping (`_finalize_cancelled_lunge_move`: time
cost, turn flag, berserk/conduct handoff) runs instead when the lunge
succeeded and the follow-up move is cancelled, here by the run-stop
check. -/
theorem C2_abort_cancels_finalize_on_success_cancel :
    (∀ (env : Env) (rng : RNG) (mv : coord_def) (you you' : player),
       you.attribute_held = false → you.confused = false →
       you.lunging = true →
       _lunge_forward env rng mv you = (spret.abort, you') →
       move_player_action env rng mv you
         = ⟨you, MoveOutcome.lunge_abort, false⟩)
  ∧ (∀ (env : Env) (rng : RNG) (mv : coord_def) (you you' : player),
       you.attribute_held = false → you.confused = false →
       you.lunging = true →
       _lunge_forward env rng mv you = (spret.success, you') →
       env.in_bounds (you'.pos + mv) = true →
       env.check_stop_running = true →
       (move_player_action env rng mv you).outcome
           = MoveOutcome.cancelled_lunge_move
       ∧ (move_player_action env rng mv you).applied_mtt = true
       ∧ (move_player_action env rng mv you).you.turn_is_over = true) := by
  constructor
  · intro env rng mv you you' hheld hconf hlun hlf
    have hfr : (_lunge_forward env rng mv you).2 = you := by
      apply lunge_noncommit_frame
      rw [hlf]
      simp
    rw [hlf] at hfr
    simp only at hfr
    subst hfr
    simp [move_player_action, confusion_gate, hheld, hconf, hlun, hlf]
  · intro env rng mv you you' hheld hconf hlun hlf hin hstop
    simp [move_player_action, confusion_gate, move_player_action_core,
      move_player_action_resolve, _finalize_cancelled_lunge_move, hheld,
      hconf, hlun, hlf, hin, hstop]

/-- `wEnvL` whose run-stop check cancels the move after the lunge. -/
def wEnvStop : Env := { wEnvL with check_stop_running := true }

/-- The state `_lunge_forward` produces from `wYouLunge` in `wEnvStop`:
advanced one cell east. -/
def wYouLunged : player := { wYouLunge with pos := ⟨11, 10⟩ }

/-- Witness for C2 (amended) at concrete inputs: the abort case and the
successful-lunge-then-run-stop case. -/
theorem C2_witness :
    (move_player_action wEnvAbort wRng ⟨1, 0⟩ wYouLunge
       = ⟨wYouLunge, MoveOutcome.lunge_abort, false⟩)
  ∧ ((move_player_action wEnvStop wRng ⟨1, 0⟩ wYouLunge).outcome
        = MoveOutcome.cancelled_lunge_move
      ∧ (move_player_action wEnvStop wRng ⟨1, 0⟩ wYouLunge).applied_mtt = true
      ∧ (move_player_action wEnvStop wRng ⟨1, 0⟩
          wYouLunge).you.turn_is_over = true) :=
  ⟨C2_abort_cancels_finalize_on_success_cancel.1 wEnvAbort wRng ⟨1, 0⟩
     wYouLunge wYouLunge rfl rfl rfl (by decide),
   C2_abort_cancels_finalize_on_success_cancel.2 wEnvStop wRng ⟨1, 0⟩
     wYouLunge wYouLunged rfl rfl rfl (by decide) (by decide) rfl⟩
